import Mathlib

/-!
Verification of the Zwishh internal-service SDK (`zwishh_pyp`).

The repository ships thin per-service SDK wrappers (`zwishh/sdk/sellers.py`,
`zwishh/sdk/users.py`) and their test suites.  Every wrapper delegates to a
shared `BaseServiceClient` (`zwishh/sdk/base_client.py`) that owns request
construction, API-key injection, retry/backoff and error classification; that
module is imported by the wrappers and the tests but is not present in the
sources, so its behaviour is modelled here from the specification
(Resilient Internal Service Client, spec sections 4.1 to 4.6 and 7).  The
wrapper code itself is embedded directly from the Python sources.
-/

namespace Zwishh

/-- JSON values exchanged with the upstream service (spec section 9: a tagged
union of null / bool / number / string / sequence / mapping).  Python dict
bodies used by the SDK carry only these shapes. -/
inductive Json where
  | null
  | bool (b : Bool)
  | num (n : Int)
  | str (s : String)
  | arr (elems : List Json)
  | obj (fields : List (String × Json))

/-- Body of an HTTP response as seen by the classifier: absent, a decoded
JSON document, or raw text that is not valid JSON. -/
inductive ResponseBody where
  | empty
  | json (j : Json)
  | raw (s : String)

/-- Transport-level failures (glossary: connection refused, DNS failure,
timeout), distinct from an HTTP error status. -/
inductive TransportFailure where
  | connectionRefused
  | dnsFailure
  | timeout
deriving DecidableEq

/-- Modelled from the spec: section 3 Attempt Outcome, the transient result of
one transport attempt executed by the missing `BaseServiceClient` — either an
HTTP response (status code and body) or a transport-level failure. -/
inductive AttemptOutcome where
  | response (status : Nat) (body : ResponseBody)
  | transport (failure : TransportFailure)

/-- Modelled from the spec: section 4.4 of the missing `base_client.py` —
retryable outcomes are transport failures and HTTP 5xx responses; 4xx and
2xx/3xx responses are terminal. -/
def AttemptOutcome.isRetryable : AttemptOutcome → Bool
  | .response status _ => decide (500 ≤ status ∧ status ≤ 599)
  | .transport _ => true

/-- HTTP status of an outcome, `none` for transport failures (spec section
4.5: every typed error carries the HTTP status or `None`). -/
def AttemptOutcome.statusOf : AttemptOutcome → Option Nat
  | .response status _ => some status
  | .transport _ => none

/-- Response body of an outcome; transport failures carry none. -/
def AttemptOutcome.bodyOf : AttemptOutcome → ResponseBody
  | .response _ body => body
  | .transport _ => .empty

/-- Modelled from the spec: the retry loop of section 4.4 in the missing
`base_client.py`.  `upstream i` is the outcome of transport attempt `i` of
this logical call; `remaining` is the retry budget still available.  The
first attempt is always issued; a retryable outcome consumes budget and
resubmits, a terminal outcome or an exhausted budget returns the last outcome
unchanged.  Returns the final outcome together with the total number of
transport attempts issued. -/
def retryAux (upstream : Nat → AttemptOutcome) : Nat → AttemptOutcome × Nat
  | 0 => (upstream 0, 1)
  | remaining + 1 =>
    if (upstream 0).isRetryable then
      let rest := retryAux (fun i => upstream (i + 1)) remaining
      (rest.1, rest.2 + 1)
    else
      (upstream 0, 1)

/-- Modelled from the spec: section 4.4 entry point — run the retry loop with
the configured `max_retries` budget, so at most `max_retries + 1` attempts. -/
def retry (upstream : Nat → AttemptOutcome) (maxRetries : Nat) : AttemptOutcome × Nat :=
  retryAux upstream maxRetries

/-- Error taxonomy of spec section 7: `Unauthorized`, `NotFound`,
`NonRetryable`, `ServiceUnavailable` (exhausted 5xx/transport) and
`DecodeError`.  The tests surface these as the `ServiceClientUnauthorized`,
`ServiceClientNotFound` and `NonRetryableHTTPError` exceptions of the missing
`base_client.py`. -/
inductive ErrorKind where
  | unauthorized
  | notFound
  | nonRetryable
  | serviceUnavailable
  | decodeError
deriving DecidableEq

/-- Modelled from the spec: section 4.5 Typed Error — kind plus the original
status (or `none` for transport failures), the raw response body when any,
and the originating request path. -/
structure TypedError where
  kind : ErrorKind
  status : Option Nat
  body : ResponseBody
  path : String

/-- Modelled from the spec: section 4.5 Error Classifier of the missing
`base_client.py`.  2xx with a JSON body succeeds with that body; 2xx with a
non-JSON body is a decoding failure; 401 and 404 map to their dedicated
kinds; an exhausted 5xx or transport failure maps to `serviceUnavailable`;
every other status is `nonRetryable`. -/
def classify (path : String) : AttemptOutcome → Except TypedError Json
  | .response status body =>
    if 200 ≤ status ∧ status ≤ 299 then
      match body with
      | .json j => .ok j
      | b => .error ⟨.decodeError, some status, b, path⟩
    else if status = 401 then
      .error ⟨.unauthorized, some status, body, path⟩
    else if status = 404 then
      .error ⟨.notFound, some status, body, path⟩
    else if 500 ≤ status ∧ status ≤ 599 then
      .error ⟨.serviceUnavailable, some status, body, path⟩
    else
      .error ⟨.nonRetryable, some status, body, path⟩
  | .transport _ => .error ⟨.serviceUnavailable, none, .empty, path⟩

/-- Client configuration (spec section 3): set once at construction and
immutable for the client lifetime.  Only the fields the verified claims
depend on are carried. -/
structure ClientConfig where
  base_url : String
  api_key : String
  maxRetries : Nat

/-- Modelled from the spec: section 4.6 orchestrator of the missing
`base_client.py` — one logical call: run the retry loop over the transport
attempts and classify the final outcome.  Returns the classified result and
the number of transport attempts issued. -/
def performCall (cfg : ClientConfig) (path : String) (upstream : Nat → AttemptOutcome) :
    Except TypedError Json × Nat :=
  let r := retry upstream cfg.maxRetries
  (classify path r.1, r.2)

/-- HTTP methods exposed by the orchestrator (spec section 4.6). -/
inductive Method where
  | GET
  | POST
  | PATCH
  | DELETE
deriving DecidableEq

/-- Value of one query parameter: a plain string or a sequence serialized as
repeated keys (spec section 4.1). -/
inductive QueryValue where
  | single (v : String)
  | seq (vs : List String)

/-- Modelled from the spec: section 4.1 query serialization done in the
missing `base_client.py` — a plain value yields one `key=value` pair, a
sequence value yields one pair per element in input order. -/
def queryPairs (params : List (String × QueryValue)) : List (String × String) :=
  params.flatMap fun p =>
    match p.2 with
    | .single v => [(p.1, v)]
    | .seq vs => vs.map fun v => (p.1, v)

/-- Rendered query string: the serialized pairs joined as
`key=value` components separated by ampersands. -/
def queryString (params : List (String × QueryValue)) : String :=
  String.intercalate "&" ((queryPairs params).map fun p => p.1 ++ "=" ++ p.2)

/-- Characters dropped when joining base URL and path. -/
def stripTrailingSlashes (s : String) : String :=
  ⟨(s.data.reverse.dropWhile (fun c => c = '/')).reverse⟩

/-- Characters dropped when joining base URL and path. -/
def stripLeadingSlashes (s : String) : String :=
  ⟨s.data.dropWhile (fun c => c = '/')⟩

/-- Modelled from the spec: section 4.1 — the relative path is joined to the
base URL with exactly one separating slash regardless of trailing or leading
slashes on either side. -/
def joinUrl (base path : String) : String :=
  stripTrailingSlashes base ++ "/" ++ stripLeadingSlashes path

/-- Modelled from the spec: section 3 Request Descriptor built by the missing
`base_client.py` — method, fully qualified URL, serialized query, optional
JSON body and computed headers. -/
structure RequestDescriptor where
  method : Method
  url : String
  query : List (String × String)
  body : Option Json
  headers : List (String × String)

/-- Modelled from the spec: section 4.1 request construction — pure and
deterministic so it can be rebuilt identically on every retry attempt. -/
def buildDescriptor (cfg : ClientConfig) (method : Method) (path : String)
    (params : List (String × QueryValue)) (body : Option Json) : RequestDescriptor :=
  { method := method
    url := joinUrl cfg.base_url path
    query := queryPairs params
    body := body
    headers := [] }

/-- Modelled from the spec: section 4.2 Auth Injector of the missing
`base_client.py` — attaches the shared-secret header
`X-Service-API-Key: <configured api_key>` to a descriptor before execution. -/
def injectAuth (cfg : ClientConfig) (r : RequestDescriptor) : RequestDescriptor :=
  { r with headers := r.headers ++ [("X-Service-API-Key", cfg.api_key)] }

/-- Modelled from the spec: the outgoing request of transport attempt `i` of
a logical call.  Sections 3 and 4.1: the descriptor is re-built identically
on each retry (no per-attempt mutation), hence the result does not depend on
the attempt index. -/
def requestForAttempt (cfg : ClientConfig) (method : Method) (path : String)
    (params : List (String × QueryValue)) (body : Option Json) (_i : Nat) :
    RequestDescriptor :=
  injectAuth cfg (buildDescriptor cfg method path params body)

/-- First header value carried under the given name, if any. -/
def headerValue (r : RequestDescriptor) (name : String) : Option String :=
  (r.headers.find? fun h => h.1 == name).map Prod.snd

/-- One endpoint invocation as produced by an SDK wrapper method: the HTTP
method, the relative path handed to the orchestrator, query parameters and
optional JSON body. -/
structure EndpointCall where
  method : Method
  path : String
  params : List (String × QueryValue)
  body : Option Json

/-- Field lookup in a JSON object, mirroring Python `d[key]` (fails on a
missing key or a non-object). -/
def Json.lookup (j : Json) (key : String) : Option Json :=
  match j with
  | .obj fields => (fields.find? fun f => f.1 == key).map Prod.snd
  | _ => none

namespace SellerServiceClient

/-- Embeds `SellerServiceClient.create_seller` (`zwishh/sdk/sellers.py`):
POST `internal/me` with body `{"phone_number": seller["phone_number"]}`;
fails if the seller mapping has no `phone_number` key. -/
def create_seller (seller : Json) : Option EndpointCall :=
  (seller.lookup "phone_number").map fun phone =>
    ⟨.POST, "internal/me", [], some (.obj [("phone_number", phone)])⟩

/-- Embeds `SellerServiceClient.get_seller_by_phone_number`:
GET `internal/phone/{phone_number}`. -/
def get_seller_by_phone_number (phone_number : String) : EndpointCall :=
  ⟨.GET, "internal/phone/" ++ phone_number, [], none⟩

/-- Embeds `SellerServiceClient.get_shop`: GET `internal/shops/{shop_id}`. -/
def get_shop (shop_id : Int) : EndpointCall :=
  ⟨.GET, "internal/shops/" ++ toString shop_id, [], none⟩

/-- Embeds `SellerServiceClient.get_shops`: GET `internal/shops` with `limit`
and `offset` query parameters. -/
def get_shops (limit : Int := 10) (offset : Int := 0) : EndpointCall :=
  ⟨.GET, "internal/shops",
    [("limit", .single (toString limit)), ("offset", .single (toString offset))], none⟩

/-- Embeds `SellerServiceClient.get_products`: GET `internal/products` with
`limit` and `offset` query parameters. -/
def get_products (limit : Int := 10) (offset : Int := 0) : EndpointCall :=
  ⟨.GET, "internal/products",
    [("limit", .single (toString limit)), ("offset", .single (toString offset))], none⟩

/-- Embeds `SellerServiceClient.get_product_variant_details`:
GET `internal/products/{product_id}/variants/{variant_id}`. -/
def get_product_variant_details (product_id : String) (variant_id : String) : EndpointCall :=
  ⟨.GET, "internal/products/" ++ product_id ++ "/variants/" ++ variant_id, [], none⟩

/-- Embeds `SellerServiceClient.get_variants_batch`:
POST `internal/products/variants/batch` with body `{"variant_ids": [...]}`. -/
def get_variants_batch (variant_ids : List String) : EndpointCall :=
  ⟨.POST, "internal/products/variants/batch", [],
    some (.obj [("variant_ids", .arr (variant_ids.map .str))])⟩

/-- The names of the methods defined on the `SellerServiceClient` class body
in `zwishh/sdk/sellers.py`, in source order (its public endpoint surface;
`get`/`post`/`patch`/`delete` are inherited transport methods of the base
client, not endpoints). -/
def endpointNames : List String :=
  ["create_seller", "get_seller_by_phone_number", "get_shop", "get_shops",
   "get_products", "get_product_variant_details", "get_variants_batch"]

end SellerServiceClient

namespace UserServiceClient

/-- Embeds `UserServiceClient.get_user` (`zwishh/sdk/users.py`):
GET `internal/users/{user_id}`. -/
def get_user (user_id : Int) : EndpointCall :=
  ⟨.GET, "internal/users/" ++ toString user_id, [], none⟩

/-- Embeds `UserServiceClient.get_user_address` (`zwishh/sdk/users.py`, lines
43 to 47): a single `address_id` parameter, GET `internal/addresses/{address_id}`. -/
def get_user_address (address_id : Int) : EndpointCall :=
  ⟨.GET, "internal/addresses/" ++ toString address_id, [], none⟩

/-- The request path that `tests/sdk/test_users.py` mocks for
`get_user_address` (relative to the base URL):
`internal/users/{user_id}/addresses/{address_id}`. -/
def testExpectedAddressPath (user_id : Int) (address_id : Int) : String :=
  "internal/users/" ++ toString user_id ++ "/addresses/" ++ toString address_id

end UserServiceClient

/-! ### Behaviour of the retry loop -/

/-- If the first `k` attempts are retryable, attempt `k` is terminal and the
budget allows reaching it, the loop stops right after attempt `k`: it returns
that outcome having issued exactly `k + 1` attempts. -/
theorem retryAux_stops_at_first_terminal (k : Nat) :
    ∀ (remaining : Nat) (upstream : Nat → AttemptOutcome),
      k ≤ remaining →
      (∀ j, j < k → (upstream j).isRetryable = true) →
      (upstream k).isRetryable = false →
      retryAux upstream remaining = (upstream k, k + 1) := by
  induction k with
  | zero =>
    intro remaining upstream _ _ hterm
    cases remaining with
    | zero => simp [retryAux]
    | succ r => simp [retryAux, hterm]
  | succ k ih =>
    intro remaining upstream hk hbefore hterm
    cases remaining with
    | zero => omega
    | succ r =>
      have h0 : (upstream 0).isRetryable = true := hbefore 0 (Nat.succ_pos k)
      have hrest := ih r (fun i => upstream (i + 1)) (Nat.le_of_succ_le_succ hk)
        (fun j hj => hbefore (j + 1) (Nat.succ_lt_succ hj)) hterm
      simp [retryAux, h0, hrest]

/-- If every attempt within the budget is retryable, the loop exhausts the
budget: it issues exactly `remaining + 1` attempts and returns the last
outcome unchanged. -/
theorem retryAux_exhausts (remaining : Nat) :
    ∀ upstream : Nat → AttemptOutcome,
      (∀ j, j ≤ remaining → (upstream j).isRetryable = true) →
      retryAux upstream remaining = (upstream remaining, remaining + 1) := by
  induction remaining with
  | zero =>
    intro upstream _
    simp [retryAux]
  | succ r ih =>
    intro upstream hall
    have h0 : (upstream 0).isRetryable = true := hall 0 (Nat.zero_le _)
    have hrest := ih (fun i => upstream (i + 1))
      (fun j hj => hall (j + 1) (Nat.succ_le_succ hj))
    simp [retryAux, h0, hrest]

/-- A retryable outcome that survives all retries classifies to the
`serviceUnavailable` kind, carrying the outcome's status and body. -/
theorem classify_retryable (path : String) (o : AttemptOutcome)
    (h : o.isRetryable = true) :
    classify path o = .error ⟨.serviceUnavailable, o.statusOf, o.bodyOf, path⟩ := by
  cases o with
  | transport f => rfl
  | response s b =>
    have hs : 500 ≤ s ∧ s ≤ 599 := by
      simpa [AttemptOutcome.isRetryable] using h
    simp only [classify, AttemptOutcome.statusOf, AttemptOutcome.bodyOf]
    rw [if_neg (by omega), if_neg (by omega), if_neg (by omega), if_pos hs]

/-! ### Claims -/

/-- C1: for every logical call whose final attempt outcome is an HTTP
response with status 404 — reached at attempt index `k` after only retryable
outcomes — the client fails with the `NotFound` typed error regardless of the
response body, and issues exactly `k + 1` attempts: no retry follows the
404. -/
theorem c1_notFound_on_404 (cfg : ClientConfig) (path : String)
    (upstream : Nat → AttemptOutcome) (k : Nat) (body : ResponseBody)
    (hk : k ≤ cfg.maxRetries)
    (hbefore : ∀ j, j < k → (upstream j).isRetryable = true)
    (h404 : upstream k = .response 404 body) :
    performCall cfg path upstream =
      (.error ⟨.notFound, some 404, body, path⟩, k + 1) := by
  have hterm : (upstream k).isRetryable = false := by
    rw [h404]; rfl
  have hstop := retryAux_stops_at_first_terminal k cfg.maxRetries upstream hk hbefore hterm
  show (classify path (retryAux upstream cfg.maxRetries).1,
        (retryAux upstream cfg.maxRetries).2) = _
  rw [hstop, h404]
  rfl

/-- C1 witness: a 404 with body `User not found` on the first attempt (as in
`test_get_user_not_found`) yields the `NotFound` error after a single
attempt, with `max_retries = 2` budget unused. -/
theorem c1_witness :
    (0 : Nat) ≤ 2 ∧
    performCall ⟨"http://test-server", "test-key", 2⟩ "internal/users/999"
        (fun _ => .response 404 (.raw "User not found")) =
      (.error ⟨.notFound, some 404, .raw "User not found", "internal/users/999"⟩, 1) :=
  ⟨Nat.zero_le 2,
   c1_notFound_on_404 ⟨"http://test-server", "test-key", 2⟩ "internal/users/999"
     (fun _ => .response 404 (.raw "User not found")) 0 (.raw "User not found")
     (Nat.zero_le 2) (fun j hj => absurd hj (Nat.not_lt_zero j)) rfl⟩

/-- C2: for every logical call whose final attempt outcome is an HTTP
response with status 401 — reached at attempt index `k` after only retryable
outcomes — the client fails with the `Unauthorized` typed error, and issues
exactly `k + 1` attempts: the 401 is never retried. -/
theorem c2_unauthorized_on_401 (cfg : ClientConfig) (path : String)
    (upstream : Nat → AttemptOutcome) (k : Nat) (body : ResponseBody)
    (hk : k ≤ cfg.maxRetries)
    (hbefore : ∀ j, j < k → (upstream j).isRetryable = true)
    (h401 : upstream k = .response 401 body) :
    performCall cfg path upstream =
      (.error ⟨.unauthorized, some 401, body, path⟩, k + 1) := by
  have hterm : (upstream k).isRetryable = false := by
    rw [h401]; rfl
  have hstop := retryAux_stops_at_first_terminal k cfg.maxRetries upstream hk hbefore hterm
  show (classify path (retryAux upstream cfg.maxRetries).1,
        (retryAux upstream cfg.maxRetries).2) = _
  rw [hstop, h401]
  rfl

/-- C2 witness: a 401 with body `Unauthorized` on the first attempt (as in
`test_get_user_unauthorized` and `test_create_order_unauthorized`) yields the
`Unauthorized` error after a single attempt. -/
theorem c2_witness :
    (0 : Nat) ≤ 2 ∧
    performCall ⟨"http://test-server", "test-key", 2⟩ "internal/orders"
        (fun _ => .response 401 (.raw "Unauthorized")) =
      (.error ⟨.unauthorized, some 401, .raw "Unauthorized", "internal/orders"⟩, 1) :=
  ⟨Nat.zero_le 2,
   c2_unauthorized_on_401 ⟨"http://test-server", "test-key", 2⟩ "internal/orders"
     (fun _ => .response 401 (.raw "Unauthorized")) 0 (.raw "Unauthorized")
     (Nat.zero_le 2) (fun j hj => absurd hj (Nat.not_lt_zero j)) rfl⟩

/-- C3: when every attempt yields a retryable outcome (HTTP 5xx or transport
failure), the client issues exactly `max_retries + 1` transport attempts and
fails with the `ServiceUnavailable` typed error carrying the last outcome's
status and body unchanged. -/
theorem c3_exhausted_retries (cfg : ClientConfig) (path : String)
    (upstream : Nat → AttemptOutcome)
    (hall : ∀ j, j ≤ cfg.maxRetries → (upstream j).isRetryable = true) :
    performCall cfg path upstream =
      (.error ⟨.serviceUnavailable, (upstream cfg.maxRetries).statusOf,
               (upstream cfg.maxRetries).bodyOf, path⟩,
       cfg.maxRetries + 1) := by
  have hx := retryAux_exhausts cfg.maxRetries upstream hall
  have hc := classify_retryable path (upstream cfg.maxRetries) (hall _ (Nat.le_refl _))
  show (classify path (retryAux upstream cfg.maxRetries).1,
        (retryAux upstream cfg.maxRetries).2) = _
  rw [hx]
  exact congrArg (fun e => (e, cfg.maxRetries + 1)) hc

/-- C3 witness: sustained 500 responses with `max_retries = 2` exhaust the
budget — exactly 3 attempts, then `ServiceUnavailable` carrying the final
500. -/
theorem c3_witness :
    (AttemptOutcome.response 500 .empty).isRetryable = true ∧
    performCall ⟨"http://test-server", "test-key", 2⟩ "internal/carts/123"
        (fun _ => .response 500 .empty) =
      (.error ⟨.serviceUnavailable, some 500, .empty, "internal/carts/123"⟩, 3) :=
  ⟨rfl,
   c3_exhausted_retries ⟨"http://test-server", "test-key", 2⟩ "internal/carts/123"
     (fun _ => .response 500 .empty) (fun _ _ => rfl)⟩

/-- C4: when the final attempt outcome is a 2xx response with a valid JSON
body, the client returns exactly that JSON body, with no transformation. -/
theorem c4_success_body_unchanged (cfg : ClientConfig) (path : String)
    (upstream : Nat → AttemptOutcome) (s : Nat) (j : Json)
    (h2xx : 200 ≤ s ∧ s ≤ 299)
    (hfinal : (retry upstream cfg.maxRetries).1 = .response s (.json j)) :
    (performCall cfg path upstream).1 = .ok j := by
  show classify path (retryAux upstream cfg.maxRetries).1 = .ok j
  rw [show retryAux upstream cfg.maxRetries = retry upstream cfg.maxRetries from rfl, hfinal]
  simp only [classify]
  rw [if_pos h2xx]

/-- C4 witness: a first-attempt 200 with JSON body
`{"id": 123, "items_total": 2}` is returned unchanged (as in
`test_get_cart_success`). -/
theorem c4_witness :
    (200 ≤ 200 ∧ 200 ≤ 299) ∧
    (performCall ⟨"http://test-server", "test-key", 2⟩ "internal/carts/123"
        (fun _ => .response 200 (.json (.obj [("id", .num 123), ("items_total", .num 2)])))).1 =
      .ok (.obj [("id", .num 123), ("items_total", .num 2)]) :=
  ⟨⟨by omega, by omega⟩,
   c4_success_body_unchanged ⟨"http://test-server", "test-key", 2⟩ "internal/carts/123"
     (fun _ => .response 200 (.json (.obj [("id", .num 123), ("items_total", .num 2)])))
     200 (.obj [("id", .num 123), ("items_total", .num 2)]) (by omega) rfl⟩

/-- C5: when the first `k` attempts (`k ≤ max_retries`) are retryable and
attempt index `k` is a 2xx response with JSON body, the client returns that
body and performs exactly `k + 1` attempts — no attempt after the success. -/
theorem c5_recovery_stops (cfg : ClientConfig) (path : String)
    (upstream : Nat → AttemptOutcome) (k s : Nat) (j : Json)
    (hk : k ≤ cfg.maxRetries)
    (hbefore : ∀ i, i < k → (upstream i).isRetryable = true)
    (h2xx : 200 ≤ s ∧ s ≤ 299)
    (hsucc : upstream k = .response s (.json j)) :
    performCall cfg path upstream = (.ok j, k + 1) := by
  have hterm : (upstream k).isRetryable = false := by
    rw [hsucc]
    simp only [AttemptOutcome.isRetryable, decide_eq_false_iff_not]
    omega
  have hstop := retryAux_stops_at_first_terminal k cfg.maxRetries upstream hk hbefore hterm
  show (classify path (retryAux upstream cfg.maxRetries).1,
        (retryAux upstream cfg.maxRetries).2) = _
  rw [hstop, hsucc]
  simp only [classify]
  rw [if_pos h2xx]

/-- C5 witness: the spec's concrete scenario — upstream outcomes 500, 500,
200 `{"id": 123}` with `max_retries = 2` — returns `{"id": 123}` having made
exactly 3 attempts. -/
theorem c5_witness :
    (2 : Nat) ≤ 2 ∧
    performCall ⟨"http://test-server", "test-key", 2⟩ "internal/carts/123"
        (fun i => if i < 2 then .response 500 .empty
                  else .response 200 (.json (.obj [("id", .num 123)]))) =
      (.ok (.obj [("id", .num 123)]), 3) :=
  ⟨Nat.le_refl 2,
   c5_recovery_stops ⟨"http://test-server", "test-key", 2⟩ "internal/carts/123"
     (fun i => if i < 2 then .response 500 .empty
               else .response 200 (.json (.obj [("id", .num 123)])))
     2 200 (.obj [("id", .num 123)]) (Nat.le_refl 2)
     (fun i hi => by interval_cases i <;> rfl)
     (by omega) rfl⟩

/-- C6: the outgoing request of every transport attempt — first attempt and
every retry alike — carries the header `X-Service-API-Key` valued with the
`api_key` the client was constructed with. -/
theorem c6_auth_header_every_attempt (cfg : ClientConfig) (method : Method)
    (path : String) (params : List (String × QueryValue)) (body : Option Json)
    (i : Nat) :
    headerValue (requestForAttempt cfg method path params body i) "X-Service-API-Key" =
      some cfg.api_key := by
  rfl

/-- C7: every logical call produces exactly one of a parsed JSON result or a
typed error, and a transport failure is always normalized by the classifier
into a typed error (`ServiceUnavailable` with no status) — never propagated
raw to the caller. -/
theorem c7_normalized_outcome (cfg : ClientConfig) (path : String)
    (upstream : Nat → AttemptOutcome) :
    (((∃ j, (performCall cfg path upstream).1 = .ok j) ∧
        ¬∃ e, (performCall cfg path upstream).1 = .error e) ∨
      ((∃ e, (performCall cfg path upstream).1 = .error e) ∧
        ¬∃ j, (performCall cfg path upstream).1 = .ok j)) ∧
    ∀ f : TransportFailure,
      classify path (.transport f) =
        .error ⟨.serviceUnavailable, none, .empty, path⟩ := by
  constructor
  · cases h : (performCall cfg path upstream).1 with
    | ok j =>
      refine Or.inl ⟨⟨j, rfl⟩, ?_⟩
      rintro ⟨e, he⟩
      exact Except.noConfusion he
    | error e =>
      refine Or.inr ⟨⟨e, rfl⟩, ?_⟩
      rintro ⟨j, hj⟩
      exact Except.noConfusion hj
  · intro f
    rfl

/-- C8: a sequence-valued query parameter is serialized as repeated keys, one
`key=element` pair per element, preserving the input order of the sequence
and the position of the parameter among the others; concretely the query of
`test_get_likes_count_success` renders as
`product_ids=1&product_ids=2&product_ids=3`. -/
theorem c8_repeated_keys (pre post : List (String × QueryValue)) (k : String)
    (vs : List String) :
    queryPairs (pre ++ (k, QueryValue.seq vs) :: post) =
      queryPairs pre ++ vs.map (fun v => (k, v)) ++ queryPairs post ∧
    queryString [("product_ids", QueryValue.seq ["1", "2", "3"])] =
      "product_ids=1&product_ids=2&product_ids=3" := by
  constructor
  · simp [queryPairs]
  · rfl

/-- Helper for C9: a path under `internal/addresses/` is never equal to a
path under `internal/users/`, whatever identifiers are appended — the two
differ at the character right after the shared `internal/` stem. -/
theorem addresses_path_ne_users_path (user_id address_id : Int) :
    "internal/addresses/" ++ toString address_id ≠
      "internal/users/" ++ toString user_id ++ "/addresses/" ++ toString address_id := by
  intro h
  have hd := congrArg String.data h
  simp only [String.data_append] at hd
  have h1 := congrArg (List.take 10) hd
  rw [List.take_append_of_le_length (by decide)] at h1
  rw [List.append_assoc, List.append_assoc] at h1
  rw [List.take_append_of_le_length (by decide)] at h1
  exact absurd h1 (by decide)

/-- C9: `UserServiceClient.get_user_address` takes a single identifier and
issues a GET to `internal/addresses/{address_id}`; for no `user_id` does its
path coincide with the `internal/users/{user_id}/addresses/{address_id}`
path the test suite mocks. -/
theorem c9_get_user_address_single_id (address_id : Int) :
    UserServiceClient.get_user_address address_id =
      ⟨.GET, "internal/addresses/" ++ toString address_id, [], none⟩ ∧
    ∀ user_id : Int,
      (UserServiceClient.get_user_address address_id).path ≠
        UserServiceClient.testExpectedAddressPath user_id address_id :=
  ⟨rfl, fun user_id => addresses_path_ne_users_path user_id address_id⟩

/-- C10: the endpoint surface of `SellerServiceClient` is exactly the seven
methods of its class body; `reserve_inventory`, `release_inventory` and
`commit_inventory` — which the test suite invokes — are not among them. -/
theorem c10_no_inventory_methods :
    "reserve_inventory" ∉ SellerServiceClient.endpointNames ∧
    "release_inventory" ∉ SellerServiceClient.endpointNames ∧
    "commit_inventory" ∉ SellerServiceClient.endpointNames ∧
    SellerServiceClient.endpointNames =
      ["create_seller", "get_seller_by_phone_number", "get_shop", "get_shops",
       "get_products", "get_product_variant_details", "get_variants_batch"] := by
  refine ⟨?_, ?_, ?_, rfl⟩ <;> decide

end Zwishh
